import Mathlib

/-!
Verification of the signup-flow core of the account-creation repository:
the OTP-screen signal classifier (`AirbnbSignupPage.wait_for_otp_screen`),
the phone-number pool (`PhoneManager`), the phone-number value model
(`PhoneNumber`), the browser session teardown (`BrowserManager.stop`) and
the attempt boundary (`SignupOrchestrator.run_single_signup` /
`_run_airbnb_signup`), shallowly embedded from the Python source.
-/

set_option autoImplicit false

namespace AC

/-! ## Character-level string primitives

The Python string operations used by the source (`str.lower`,
`str.strip`, `str.startswith`, slicing) are embedded directly on the
character list of a `String`, so that every definition below evaluates
by kernel reduction. -/

/-- Python `str.lower()` (the source only ever compares ASCII text). -/
def strLower (s : String) : String :=
  String.mk (s.toList.map Char.toLower)

/-- Python `str.strip()`: whitespace removed from both ends. -/
def pyStrip (s : String) : String :=
  String.mk
    (((s.toList.dropWhile Char.isWhitespace).reverse.dropWhile
        Char.isWhitespace).reverse)

/-- Python `str.startswith(pre)`. -/
def strStartsWith (s pre : String) : Bool :=
  pre.toList.isPrefixOf s.toList

/-- Python slicing `s[k:]`. -/
def strDropChars (s : String) (k : Nat) : String :=
  String.mk (s.toList.drop k)

/-! ## Phone number value model (src/types/models.py) -/

/-- Embeds the `PhoneNumber` pydantic model: the cleaned digit string plus
the country code and local number derived by `model_post_init`. -/
structure PhoneNumber where
  number : String
  country_code : String
  local_number : String
  deriving Repr, DecidableEq

/-- Embeds the `clean_number` validator: raises `ValueError` on an empty
raw value, otherwise keeps only the digit characters. -/
def clean_number (v : String) : Except String String :=
  if v = "" then Except.error "Phone number cannot be empty"
  else Except.ok (String.mk (v.toList.filter Char.isDigit))

/-- Embeds the prefix table of `model_post_init`: country code and local
number from the leading digits, empty strings when no prefix matches. -/
def derive_country (n : String) : String × String :=
  if strStartsWith n "380" then ("380", strDropChars n 3)
  else if strStartsWith n "375" then ("375", strDropChars n 3)
  else if strStartsWith n "261" then ("261", strDropChars n 3)
  else if strStartsWith n "962" then ("962", strDropChars n 3)
  else if strStartsWith n "1" then ("1", strDropChars n 1)
  else ("", "")

/-- Constructing a `PhoneNumber(number=raw)`: validator then post-init
derivation (which only runs when the cleaned number is nonempty). -/
def PhoneNumber.make (raw : String) : Except String PhoneNumber :=
  match clean_number raw with
  | Except.error e => Except.error e
  | Except.ok n =>
    let cc := if n = "" then ("", "") else derive_country n
    Except.ok { number := n, country_code := cc.1, local_number := cc.2 }

/-- The `formatted` property: a plus sign followed by the stored digits. -/
def PhoneNumber.formatted (p : PhoneNumber) : String := "+" ++ p.number

/-! ## Signal classifier (src/pages/airbnb/signup_page.py,
`wait_for_otp_screen`) -/

/-- The `failure_texts` table of `wait_for_otp_screen`, verbatim. -/
def failure_texts : List String :=
  ["you\x27ve reached the max confirmation attempts",
   "max confirmation attempts",
   "try again in 24 hours",
   "phone number isn\x27t supported",
   "isn\x27t supported",
   "not supported",
   "sign up using a different method",
   "different method",
   "too many attempts",
   "rate limit",
   "temporarily blocked",
   "try again later",
   "something went wrong",
   "we couldn\x27t send",
   "couldn\x27t send a code",
   "unable to send",
   "invalid phone",
   "phone number is invalid"]

/-- The `captcha_indicators` selector table, verbatim. -/
def captcha_indicators : List String :=
  ["iframe[src*=\"captcha\"]",
   "iframe[src*=\"arkoselabs\"]",
   "iframe[src*=\"funcaptcha\"]",
   "#captcha",
   "[data-testid=\"captcha\"]",
   "div:has-text(\"verify you\x27re human\")",
   "div:has-text(\"security check\")"]

/-- The `otp_success_texts` table, verbatim. -/
def otp_success_texts : List String :=
  ["enter the code we\x27ve sent via sms to",
   "enter the code we sent over sms to",
   "enter the code we sent via sms to",
   "we\x27ve sent via sms",
   "sent via sms to +"]

/-- The `otp_indicators` selector table, verbatim. -/
def otp_indicators : List String :=
  ["input[inputmode=\"numeric\"]",
   "input[autocomplete=\"one-time-code\"]"]

/-- Embeds the Python substring operator `pat in text`: `pat` occurs
contiguously in the character list `text`. -/
def occursIn (pat : List Char) : List Char → Bool
  | [] => pat.isEmpty
  | c :: rest => pat.isPrefixOf (c :: rest) || occursIn pat rest

/-- One observed page state: the visible body text (`page.inner_text`)
and the set of selectors whose first match is currently visible. -/
structure PageState where
  bodyText : String
  visible : List String
  deriving Repr, DecidableEq

/-- `page_text_lower` in the source: the body text lowercased. -/
def pageTextLower (st : PageState) : String := strLower st.bodyText

/-- The STEP 1 scan: the first failure phrase whose lowercase form occurs
in the lowercased page text. -/
def findFailureText (st : PageState) : Option String :=
  failure_texts.find? fun t =>
    occursIn (strLower t).toList (pageTextLower st).toList

/-- The STEP 2 scan: the first captcha selector that is visible. -/
def findCaptcha (st : PageState) : Option String :=
  captcha_indicators.find? fun sel => st.visible.contains sel

/-- The STEP 3 scan: the first OTP success phrase occurring in the
lowercased page text (the table entries are already lowercase). -/
def findSuccessText (st : PageState) : Option String :=
  otp_success_texts.find? fun t =>
    occursIn t.toList (pageTextLower st).toList

/-- The backup scan: the first OTP input selector that is visible. -/
def findOtpInput (st : PageState) : Option String :=
  otp_indicators.find? fun sel => st.visible.contains sel

/-- Result of one poll tick of `wait_for_otp_screen`. -/
inductive TickResult where
  | definiteFailure (phrase : String)
  | captchaFailure (selector : String)
  | success (phrase : String)
  | pending
  deriving Repr, DecidableEq

/-- One iteration of the `while elapsed < timeout` loop: failure text
first, then captcha, then success phrase, then the backup OTP-input check
(which re-reads the page text and rechecks success and failure phrases
before treating the bare input as still pending). -/
def otpTick (st : PageState) : TickResult :=
  match findFailureText st with
  | some t => TickResult.definiteFailure t
  | none =>
    match findCaptcha st with
    | some sel => TickResult.captchaFailure sel
    | none =>
      match findSuccessText st with
      | some t => TickResult.success t
      | none =>
        match findOtpInput st with
        | some _ =>
          match findSuccessText st with
          | some t => TickResult.success t
          | none =>
            match findFailureText st with
            | some t => TickResult.definiteFailure t
            | none => TickResult.pending
        | none => TickResult.pending

/-- The polling loop body: `k` is the current tick index into the scripted
page-state sequence, the `Nat` argument is the number of remaining ticks;
when the ticks are exhausted, the source returns `False` (timeout). -/
def wait_for_otp_screen_go (states : Nat → PageState) (k : Nat) :
    Nat → Bool
  | 0 => false
  | Nat.succ n =>
    match otpTick (states k) with
    | TickResult.definiteFailure _ => false
    | TickResult.captchaFailure _ => false
    | TickResult.success _ => true
    | TickResult.pending => wait_for_otp_screen_go states (k + 1) n

/-- `wait_for_otp_screen(timeout)` over a scripted sequence of page
states: `check_interval` is 1000 ms, so the loop runs
`ceil(timeout / 1000)` ticks before giving up. -/
def wait_for_otp_screen (states : Nat → PageState) (timeout : Nat) :
    Bool :=
  wait_for_otp_screen_go states 0 ((timeout + 999) / 1000)

/-! ## Phone number pool (src/utils/phone_manager.py) -/

/-- State of a `PhoneManager`: the loaded phone list, the two in-memory
sets of processed numbers, the persisted line contents of `success.txt`
and `failed.txt`, and the `_loaded` flag. -/
structure PMState where
  allPhones : List PhoneNumber
  successNumbers : List String
  failedNumbers : List String
  successFile : List String
  failedFile : List String
  loaded : Bool
  deriving Repr, DecidableEq

/-- Python `set.add`: insert a string unless already present (a list kept
duplicate-free models the set; insertion order is irrelevant to the
membership and cardinality facts proved below). -/
def setInsert (s : List String) (x : String) : List String :=
  if s.contains x then s else s ++ [x]

/-- Embeds `_load_numbers_from_file`: strip each line, skip empties, and
collect the rest into a set. -/
def load_numbers_from_file (lines : List String) : List String :=
  (lines.map pyStrip).foldl
    (fun acc line => if line = "" then acc else setInsert acc line) []

/-- Embeds `_is_processed`: membership in either in-memory set. -/
def is_processed (st : PMState) (n : String) : Bool :=
  st.successNumbers.contains n || st.failedNumbers.contains n

/-- The re-read performed at the top of `get_next` and of
`available_count`: both in-memory sets are reloaded from the persisted
files. -/
def reloadFiles (st : PMState) : PMState :=
  { st with successNumbers := load_numbers_from_file st.successFile,
            failedNumbers := load_numbers_from_file st.failedFile }

/-- Embeds `get_next`: raises unless loaded, re-reads both files, then
returns the first phone of the loaded list that is not processed (or
`none` when exhausted).  The returned state records the refreshed
in-memory sets. -/
def get_next (st : PMState) :
    Except String (PMState × Option PhoneNumber) :=
  if st.loaded = false then
    Except.error "PhoneManager not loaded. Call load() first."
  else
    let st2 := reloadFiles st
    Except.ok (st2, st2.allPhones.find? fun p => !(is_processed st2 p.number))

/-- Embeds `mark_success`: raises unless loaded, adds the number to the
in-memory success set, and appends one line to `success.txt`. -/
def mark_success (st : PMState) (p : PhoneNumber) : Except String PMState :=
  if st.loaded = false then
    Except.error "PhoneManager not loaded. Call load() first."
  else
    Except.ok { st with
      successNumbers := setInsert st.successNumbers p.number,
      successFile := st.successFile ++ [p.number] }

/-- Embeds `mark_failed`: the mirror image of `mark_success` on the
failed set and `failed.txt`. -/
def mark_failed (st : PMState) (p : PhoneNumber) : Except String PMState :=
  if st.loaded = false then
    Except.error "PhoneManager not loaded. Call load() first."
  else
    Except.ok { st with
      failedNumbers := setInsert st.failedNumbers p.number,
      failedFile := st.failedFile ++ [p.number] }

/-- Embeds the `available_count` property: re-read both files, then
total minus (success count plus failed count). -/
def available_count (st : PMState) : PMState × Int :=
  let st2 := reloadFiles st
  (st2, (st2.allPhones.length : Int)
          - ((st2.successNumbers.length : Int) + st2.failedNumbers.length))

/-- Embeds `_load_phone_list`: a missing source file raises
`FileNotFoundError`; otherwise each stripped nonempty line is parsed into
a `PhoneNumber`, and a line whose construction raises `ValueError` is
skipped (with a warning) instead of aborting the load. -/
def load_phone_list (fileExists : Bool) (content : List String) :
    Except String (List PhoneNumber) :=
  if fileExists = false then
    Except.error "Phone list not found"
  else
    Except.ok ((content.map pyStrip).filterMap fun line =>
      if line = "" then none else (PhoneNumber.make line).toOption)

/-! ## Browser session teardown (src/core/browser_manager.py, `stop`) -/

/-- An underlying browser handle; `closeFailure` records the exception
`browser.close()` would raise (a dead handle), if any. -/
structure BrowserHandle where
  closeFailure : Option String
  deriving Repr, DecidableEq

/-- The Playwright driver handle; `stopFailure` records the exception
`playwright.stop()` would raise, if any. -/
structure PlaywrightHandle where
  stopFailure : Option String
  deriving Repr, DecidableEq

/-- The part of `BrowserManager` state that `stop` touches. -/
structure BrowserManagerState where
  browser : Option BrowserHandle
  playwright : Option PlaywrightHandle
  deriving Repr, DecidableEq

/-- Embeds `BrowserManager.stop`: close the browser if present, then stop
Playwright if present, clearing each field after its call.  The source
wraps neither call in a try/except, so a raising call propagates. -/
def BrowserManager.stop (s : BrowserManagerState) :
    Except String BrowserManagerState := do
  let s1 ←
    match s.browser with
    | some b =>
      match b.closeFailure with
      | some msg => Except.error msg
      | none => Except.ok { s with browser := none }
    | none => Except.ok s
  match s1.playwright with
  | some pw =>
    match pw.stopFailure with
    | some msg => Except.error msg
    | none => Except.ok { s1 with playwright := none }
  | none => Except.ok s1

/-! ## Attempt boundary (src/services/signup_orchestrator.py) -/

/-- Observable resource events of one attempt: the browser teardown
(`browser_manager.stop`, the session release) and the outcome commits
(`mark_used`/`mark_failed` on the phone manager, `account_saver.save`). -/
inductive Ev where
  | stop
  | commitSuccess
  | commitFailed
  | saveAccount
  deriving Repr, DecidableEq

/-- The `SignupStep` enum values used by the orchestrator. -/
inductive SignupStep where
  | initialized
  | navigatedToSignup
  | phoneEntered
  | otpRequested
  | otpVerified
  | profileCompleted
  | signupCompleted
  deriving Repr, DecidableEq

/-- The fields of a `SignupResult` that the claims are about (`account`
is abstracted to its presence). -/
structure FlowResult where
  success : Bool
  step_reached : SignupStep
  error_message : Option String
  hasAccount : Bool
  deriving Repr, DecidableEq

/-- Embeds `_create_result`. -/
def create_result (success : Bool) (step : SignupStep)
    (error : Option String) (hasAccount : Bool) : FlowResult :=
  { success := success, step_reached := step,
    error_message := error, hasAccount := hasAccount }

/-- Environment of one `_run_airbnb_signup` run: the behaviour of every
external interaction.  `throwAt` injects one exception at a numbered
control point (the flag marks a `PlaywrightTimeout`); `stopFailure` makes
the `finally`-block `browser_manager.stop()` call raise. -/
structure FlowEnv where
  throwAt : Option (Nat × Bool × String)
  formAppears : Bool
  hasPhoneError : Bool
  phoneErrMsg : Option String
  otpStates : Nat → PageState
  pageErrorMsg : Option String
  otpCallback : Bool
  otpCode : Option String
  manualOtpFormAppears : Bool
  signupSuccessful : Bool
  finalErrMsg : Option String
  stopFailure : Option String
  phoneAvailable : Option PhoneNumber

/-- Outcome of the `try` body of `_run_airbnb_signup`: a returned result
or a raised exception (timeout or generic), each with the value of
`self._current_step` at that moment. -/
inductive PyOut where
  | ret (r : FlowResult) (step : SignupStep)
  | excTimeout (msg : String) (step : SignupStep)
  | excGeneric (msg : String) (step : SignupStep)
  deriving DecidableEq

/-- The exception injected at control point `i`, if any. -/
def throwsAt (e : FlowEnv) (i : Nat) : Option (Bool × String) :=
  match e.throwAt with
  | some (j, tk, m) => if j = i then some (tk, m) else none
  | none => none

/-- Run the continuation unless an exception is injected at control point
`i` (with `self._current_step = step` at that point). -/
def orThrow (e : FlowEnv) (i : Nat) (step : SignupStep) (k : PyOut) :
    PyOut :=
  match throwsAt e i with
  | some (true, m) => PyOut.excTimeout m step
  | some (false, m) => PyOut.excGeneric m step
  | none => k

/-- STEP 5 onwards of `_run_airbnb_signup`: OTP entry has succeeded,
`self._current_step` passes through OTP_VERIFIED and is then set to
PROFILE_COMPLETED before the profile-form interaction (control point 9)
and the final verification (control point 10). -/
def afterOtp (e : FlowEnv) : PyOut :=
  orThrow e 9 SignupStep.profileCompleted <|
  orThrow e 10 SignupStep.profileCompleted <|
  if e.signupSuccessful then
    PyOut.ret (create_result true SignupStep.signupCompleted none true)
      SignupStep.signupCompleted
  else
    PyOut.ret
      (create_result false SignupStep.profileCompleted
        (some (e.finalErrMsg.getD "Signup verification failed")) false)
      SignupStep.profileCompleted

/-- The `try` body of `_run_airbnb_signup`, lines 245-472: browser start
(0), navigation (1), wait for the signup form (2, with the early-failure
return when the form never appears), phone-method selection (3), phone
entry (4), continue click (5), the error check after phone entry (6),
the OTP-screen wait (7, driven by the classifier above), OTP entry (8,
callback or manual), then `afterOtp`. -/
def airbnbBody (e : FlowEnv) : PyOut :=
  orThrow e 0 SignupStep.initialized <|
  orThrow e 1 SignupStep.initialized <|
  orThrow e 2 SignupStep.navigatedToSignup <|
  if e.formAppears = false then
    PyOut.ret
      (create_result false SignupStep.navigatedToSignup
        (some "Signup form did not appear") false)
      SignupStep.navigatedToSignup
  else
  orThrow e 3 SignupStep.navigatedToSignup <|
  orThrow e 4 SignupStep.phoneEntered <|
  orThrow e 5 SignupStep.phoneEntered <|
  orThrow e 6 SignupStep.phoneEntered <|
  if e.hasPhoneError then
    PyOut.ret
      (create_result false SignupStep.phoneEntered
        (some (e.phoneErrMsg.getD "Phone number rejected")) false)
      SignupStep.phoneEntered
  else
  orThrow e 7 SignupStep.otpRequested <|
  if wait_for_otp_screen e.otpStates 30000 = false then
    PyOut.ret
      (create_result false SignupStep.otpRequested
        (some (e.pageErrorMsg.getD "OTP screen not shown")) false)
      SignupStep.otpRequested
  else
  orThrow e 8 SignupStep.otpRequested <|
  if e.otpCallback then
    match e.otpCode with
    | none =>
      PyOut.ret
        (create_result false SignupStep.otpRequested
          (some "OTP not received") false)
        SignupStep.otpRequested
    | some _ => afterOtp e
  else
    if e.manualOtpFormAppears = false then
      PyOut.ret
        (create_result false SignupStep.otpRequested
          (some "Timeout waiting for manual OTP entry") false)
        SignupStep.otpRequested
    else afterOtp e

/-- Embeds `_run_airbnb_signup` whole: the `except` clauses convert a
raised exception into a failure result (prefixing `Timeout: ` for a
`PlaywrightTimeout`), and the `finally` block always calls
`browser_manager.stop()` — whose own failure is the only exception that
can leave this function.  Returns the outcome (or escaped exception with
the current step) together with the resource-event trace. -/
def run_airbnb_signup (e : FlowEnv) :
    Except (String × SignupStep) FlowResult × List Ev :=
  let res : FlowResult :=
    match airbnbBody e with
    | PyOut.ret r _ => r
    | PyOut.excTimeout m st =>
      create_result false st (some ("Timeout: " ++ m)) false
    | PyOut.excGeneric m st => create_result false st (some m) false
  let finalStep : SignupStep :=
    match airbnbBody e with
    | PyOut.ret _ st => st
    | PyOut.excTimeout _ st => st
    | PyOut.excGeneric _ st => st
  match e.stopFailure with
  | some m => (Except.error (m, finalStep), [Ev.stop])
  | none => (Except.ok res, [Ev.stop])

/-- Embeds `run_single_signup`: acquire a phone (returning the
no-phones failure result when exhausted), run the platform flow, then
commit the outcome — `mark_used(success=True)` plus `account_saver.save`
on success, `mark_failed` on failure — and catch any exception escaping
the flow, converting it into a failure result after `mark_failed`. -/
def run_single_signup (e : FlowEnv) :
    Except String FlowResult × List Ev :=
  match e.phoneAvailable with
  | none =>
    (Except.ok
      (create_result false SignupStep.initialized
        (some "No available phone numbers") false), [])
  | some _ =>
    match run_airbnb_signup e with
    | (Except.ok r, evs) =>
      if r.success then
        (Except.ok r,
          evs ++ [Ev.commitSuccess]
              ++ (if r.hasAccount then [Ev.saveAccount] else []))
      else
        (Except.ok r, evs ++ [Ev.commitFailed])
    | (Except.error (m, st), evs) =>
      (Except.ok (create_result false st (some m) false),
        evs ++ [Ev.commitFailed])

/-- The message of the exception raised during an attempt, if any: an
exception escaping the flow's cleanup (`stop`) outranks one raised in the
body, because the body's own handlers have already consumed the latter
by the time the `finally` block runs. -/
def raisedMessage (e : FlowEnv) : Option String :=
  match e.stopFailure with
  | some m => some m
  | none =>
    match airbnbBody e with
    | PyOut.excTimeout m _ => some m
    | PyOut.excGeneric m _ => some m
    | PyOut.ret _ _ => none

/-- The order the specification claims for terminal attempts: some
outcome commit occurs strictly before a session release in the trace. -/
def commitsBeforeStop : List Ev → Bool
  | [] => false
  | Ev.commitSuccess :: rest => rest.contains Ev.stop
  | Ev.commitFailed :: rest => rest.contains Ev.stop
  | _ :: rest => commitsBeforeStop rest

/-! ## Concrete fixtures -/

/-- Page fixture for P2: a known failure phrase together with the
numeric-code input element. -/
def fxFailureAndOtp : PageState :=
  { bodyText := "Too many attempts",
    visible := ["input[inputmode=\"numeric\"]"] }

/-- Page fixture for P3: only the numeric-code input element, no
success phrase, no failure phrase, no captcha marker. -/
def fxOnlyOtp : PageState :=
  { bodyText := "Confirm your number",
    visible := ["input[inputmode=\"numeric\"]"] }

/-- Page fixture where the SMS-sent confirmation phrase is shown. -/
def fxOtpSent : PageState :=
  { bodyText := "Enter the code we sent via SMS to +15550001234",
    visible := [] }

/-- The first Scenario A identifier, as `PhoneNumber` constructs it. -/
def phone1 : PhoneNumber :=
  { number := "15550001234", country_code := "1",
    local_number := "5550001234" }

/-- The second Scenario A identifier. -/
def phone2 : PhoneNumber :=
  { number := "380501112233", country_code := "380",
    local_number := "501112233" }

/-- A freshly loaded pool holding the two Scenario A identifiers. -/
def poolA : PMState :=
  { allPhones := [phone1, phone2], successNumbers := [],
    failedNumbers := [], successFile := [], failedFile := [],
    loaded := true }

/-- A fully successful attempt environment: every interaction succeeds
and the classifier sees the SMS-sent phrase at its first tick. -/
def happyEnv : FlowEnv :=
  { throwAt := none, formAppears := true, hasPhoneError := false,
    phoneErrMsg := none, otpStates := fun _ => fxOtpSent,
    pageErrorMsg := none, otpCallback := true, otpCode := some "123456",
    manualOtpFormAppears := true, signupSuccessful := true,
    finalErrMsg := none, stopFailure := none,
    phoneAvailable := some phone1 }

/-- The same environment with a generic exception injected at the very
first control point (the browser start). -/
def crashEnv : FlowEnv := { happyEnv with throwAt := some (0, false, "boom") }

end AC

namespace AC

/-! ## Helper lemmas -/

theorem occursIn_self (l : List Char) : occursIn l l = true := by
  cases l with
  | nil => rfl
  | cons c rest =>
    have h : (c :: rest).isPrefixOf (c :: rest) = true := by
      simp [List.isPrefixOf_iff_prefix]
    simp [occursIn, h]

theorem occursIn_append_left (pat l pre : List Char)
    (h : occursIn pat l = true) : occursIn pat (pre ++ l) = true := by
  induction pre with
  | nil => simpa using h
  | cons c rest ih => simp [occursIn, ih, Bool.or_eq_true]

theorem wait_go_eq_false_of_pending (states : Nat → PageState)
    (h : ∀ j, otpTick (states j) = TickResult.pending) :
    ∀ n k, wait_for_otp_screen_go states k n = false := by
  intro n
  induction n with
  | zero => intro k; rfl
  | succ n ih => intro k; simp [wait_for_otp_screen_go, h k, ih]

theorem contains_setInsert_self (s : List String) (x : String) :
    (setInsert s x).contains x = true := by
  unfold setInsert
  by_cases h : s.contains x = true
  · rw [if_pos h]
    exact h
  · rw [if_neg h]
    simp [List.contains, List.elem_iff]

theorem setInsert_idem (s : List String) (x : String) :
    setInsert (setInsert s x) x = setInsert s x := by
  have h := contains_setInsert_self s x
  show (if (setInsert s x).contains x then setInsert s x
        else setInsert s x ++ [x]) = setInsert s x
  rw [h]
  simp

theorem load_append_single (lines : List String) (x : String)
    (hx : pyStrip x = x) (hne : x ≠ "") :
    load_numbers_from_file (lines ++ [x]) =
      setInsert (load_numbers_from_file lines) x := by
  unfold load_numbers_from_file
  rw [List.map_append, List.foldl_append]
  simp [hx, hne]

/-! ## Claim theorems -/

/-- Claim C1: any page state containing a known failure phrase together
with an OTP success indicator (input element and/or sent phrase) is
classified as a definite failure at every tick — the failure scan runs
before everything else — so the tick is never a success and
`wait_for_otp_screen` over such states returns `False`. -/
theorem failure_text_outranks_otp_success (st : PageState)
    (hfail : (findFailureText st).isSome = true)
    (_hind : (findOtpInput st).isSome = true ∨
      (findSuccessText st).isSome = true) :
    (∃ t, otpTick st = TickResult.definiteFailure t) ∧
    (∀ t, otpTick st ≠ TickResult.success t) ∧
    (∀ timeout, wait_for_otp_screen (fun _ => st) timeout = false) := by
  obtain ⟨t, ht⟩ := Option.isSome_iff_exists.mp hfail
  have htick : otpTick st = TickResult.definiteFailure t := by
    simp [otpTick, ht]
  refine ⟨⟨t, htick⟩, ?_, ?_⟩
  · intro t' h
    rw [htick] at h
    exact TickResult.noConfusion h
  · intro timeout
    unfold wait_for_otp_screen
    cases h : (timeout + 999) / 1000 with
    | zero => rfl
    | succ n => simp [wait_for_otp_screen_go, htick]

/-- Witness for C1 on the fixture holding both the phrase
`too many attempts` and the numeric-code input. -/
theorem failure_text_outranks_otp_success_witness :
    wait_for_otp_screen (fun _ => fxFailureAndOtp) 30000 = false :=
  (failure_text_outranks_otp_success fxFailureAndOtp (by decide)
    (Or.inl (by decide))).2.2 30000

/-- Claim C2: when every polled page state shows only the numeric-code
input element (no success phrase, no failure phrase, no captcha), every
tick is `Pending`, the poll loop exhausts its budget and returns
`False`, and the orchestrator's OTP stage then produces the failure
outcome with the fallback reason `OTP screen not shown` — success is
never declared on the input element alone. -/
theorem otp_input_alone_never_success (states : Nat → PageState)
    (h : ∀ k, findFailureText (states k) = none ∧
      findCaptcha (states k) = none ∧
      findSuccessText (states k) = none ∧
      (findOtpInput (states k)).isSome = true) :
    (∀ k, otpTick (states k) = TickResult.pending) ∧
    (∀ timeout, wait_for_otp_screen states timeout = false) ∧
    (∀ e : FlowEnv, e.otpStates = states → e.throwAt = none →
      e.formAppears = true → e.hasPhoneError = false →
      e.pageErrorMsg = none →
      airbnbBody e =
        PyOut.ret
          (create_result false SignupStep.otpRequested
            (some "OTP screen not shown") false)
          SignupStep.otpRequested) := by
  have htick : ∀ k, otpTick (states k) = TickResult.pending := by
    intro k
    obtain ⟨h1, h2, h3, h4⟩ := h k
    obtain ⟨sel, hsel⟩ := Option.isSome_iff_exists.mp h4
    simp [otpTick, h1, h2, h3, hsel]
  have hwait : ∀ timeout, wait_for_otp_screen states timeout = false := by
    intro timeout
    exact wait_go_eq_false_of_pending states htick _ _
  refine ⟨htick, hwait, ?_⟩
  intro e hst hthrow hform hperr hpmsg
  simp [airbnbBody, orThrow, throwsAt, hthrow, hform, hperr, hst,
    hwait 30000, hpmsg]

/-- Witness for C2 on the input-element-only fixture. -/
theorem otp_input_alone_never_success_witness :
    wait_for_otp_screen (fun _ => fxOnlyOtp) 30000 = false := by
  have h : ∀ k : Nat, findFailureText fxOnlyOtp = none ∧
      findCaptcha fxOnlyOtp = none ∧
      findSuccessText fxOnlyOtp = none ∧
      (findOtpInput fxOnlyOtp).isSome = true := fun _ => by decide
  exact (otp_input_alone_never_success (fun _ => fxOnlyOtp) h).2.1 30000

/-- Claim C9: for a raw line of digits with an optional leading plus,
the constructed `PhoneNumber` is the same with or without the plus, the
stored number is exactly the digit sequence, country code and local
number are the prefix-table derivation of those digits, and `formatted`
is the plus followed by the digits. -/
theorem phone_number_plus_invariant (ds : String) (hne : ds ≠ "")
    (hdig : ∀ c ∈ ds.toList, c.isDigit = true) :
    PhoneNumber.make ("+" ++ ds) = PhoneNumber.make ds ∧
    PhoneNumber.make ds =
      Except.ok { number := ds,
                  country_code := (derive_country ds).1,
                  local_number := (derive_country ds).2 } ∧
    (∀ p, PhoneNumber.make ds = Except.ok p →
      p.formatted = "+" ++ ds) := by
  have hfd : List.filter Char.isDigit ds.data = ds.data :=
    List.filter_eq_self.mpr hdig
  have hdata : ("+" ++ ds).data = '+' :: ds.data := rfl
  have hplusne : ("+" ++ ds) ≠ "" := by
    intro h
    have h2 := congrArg String.data h
    rw [hdata] at h2
    exact List.noConfusion h2
  have hclean : clean_number ds = Except.ok ds := by
    simp only [clean_number, if_neg hne, String.toList, hfd]
  have hfd2 : List.filter Char.isDigit ("+" ++ ds).data = ds.data := by
    rw [hdata]
    simp [hfd]
  have hcleanPlus : clean_number ("+" ++ ds) = Except.ok ds := by
    simp only [clean_number, if_neg hplusne, String.toList, hfd2]
  refine ⟨?_, ?_, ?_⟩
  · simp [PhoneNumber.make, hclean, hcleanPlus]
  · simp [PhoneNumber.make, hclean, hne]
  · intro p hp
    simp [PhoneNumber.make, hclean, hne] at hp
    rw [← hp]
    rfl

/-- Witness for C9 on the digit string `380501112233`. -/
theorem phone_number_plus_invariant_witness :
    PhoneNumber.make ("+" ++ "380501112233") =
      PhoneNumber.make "380501112233" ∧
    PhoneNumber.make "380501112233" =
      Except.ok { number := "380501112233",
                  country_code := (derive_country "380501112233").1,
                  local_number := (derive_country "380501112233").2 } :=
  ⟨(phone_number_plus_invariant "380501112233" (by decide) (by decide)).1,
   (phone_number_plus_invariant "380501112233" (by decide) (by decide)).2.1⟩

/-- Claim C8 at the failing input: a well-formed line is loaded, and the
malformed line `abc` is not skipped — `clean_number` raises only on an
empty raw value, so the line is loaded as a `PhoneNumber` whose digit
string is empty. -/
theorem load_phone_list_keeps_malformed_line :
    load_phone_list true ["15550001234", "abc"] =
      Except.ok
        [{ number := "15550001234", country_code := "1",
           local_number := "5550001234" },
         { number := "", country_code := "", local_number := "" }] := by
  rfl

/-- Claim C5: for every pool state, `get_next` raises only when not
loaded; otherwise it re-reads both persisted stores into the in-memory
sets and returns the first loaded phone present in neither, and returns
`none` (a normal result, not an error) exactly when every loaded phone
is in a terminal store. -/
theorem get_next_returns_first_unprocessed (st : PMState)
    (h : st.loaded = true) :
    get_next st = Except.ok (reloadFiles st,
      st.allPhones.find? fun p =>
        !(is_processed (reloadFiles st) p.number)) ∧
    (reloadFiles st).allPhones = st.allPhones ∧
    (reloadFiles st).successNumbers =
      load_numbers_from_file st.successFile ∧
    (reloadFiles st).failedNumbers =
      load_numbers_from_file st.failedFile ∧
    ((st.allPhones.find? fun p =>
        !(is_processed (reloadFiles st) p.number)) = none ↔
      (st.allPhones.all fun p =>
        is_processed (reloadFiles st) p.number) = true) := by
  refine ⟨?_, rfl, rfl, rfl, ?_⟩
  · simp [get_next, h, reloadFiles]
  · rw [List.find?_eq_none, List.all_eq_true]
    simp

/-- Witness for C5 at the freshly loaded Scenario A pool, whose first
call returns the first identifier. -/
theorem get_next_returns_first_unprocessed_witness :
    poolA.loaded = true ∧
    get_next poolA = Except.ok (reloadFiles poolA,
      poolA.allPhones.find? fun p =>
        !(is_processed (reloadFiles poolA) p.number)) ∧
    (poolA.allPhones.find? fun p =>
      !(is_processed (reloadFiles poolA) p.number)) = some phone1 :=
  ⟨rfl, (get_next_returns_first_unprocessed poolA rfl).1, by decide⟩

/-- Claim C6: committing the same identifier as a success twice does not
crash, does not change `available_count` beyond the first commit, does
not grow the in-memory success set — even though the persisted file now
holds a duplicate line — and `get_next` can never return that identifier
again. -/
theorem mark_success_idempotent (st : PMState) (p : PhoneNumber)
    (h : st.loaded = true) (htrim : pyStrip p.number = p.number)
    (hne : p.number ≠ "") :
    ∃ st1 st2, mark_success st p = Except.ok st1 ∧
      mark_success st1 p = Except.ok st2 ∧
      st2.successFile = st.successFile ++ [p.number] ++ [p.number] ∧
      (available_count st2).2 = (available_count st1).2 ∧
      st2.successNumbers = st1.successNumbers ∧
      (∀ st3 q, get_next st2 = Except.ok (st3, some q) →
        q.number ≠ p.number) := by
  refine ⟨{ st with
      successNumbers := setInsert st.successNumbers p.number,
      successFile := st.successFile ++ [p.number] },
    { st with
      successNumbers :=
        setInsert (setInsert st.successNumbers p.number) p.number,
      successFile := st.successFile ++ [p.number] ++ [p.number] },
    ?_, ?_, rfl, ?_, ?_, ?_⟩
  · simp [mark_success, h]
  · simp [mark_success, h]
  · have hload :
        load_numbers_from_file (st.successFile ++ [p.number] ++ [p.number]) =
          load_numbers_from_file (st.successFile ++ [p.number]) := by
      rw [load_append_single _ _ htrim hne,
        load_append_single _ _ htrim hne, setInsert_idem]
    have hpair : st.successFile ++ [p.number, p.number] =
        st.successFile ++ [p.number] ++ [p.number] := by
      simp
    have hload2 :
        load_numbers_from_file (st.successFile ++ [p.number, p.number]) =
          load_numbers_from_file (st.successFile ++ [p.number]) := by
      rw [hpair, hload]
    simp [available_count, reloadFiles, hload, hload2]
  · exact setInsert_idem _ _
  · intro st3 q hq
    simp only [get_next, h, Bool.true_eq_false, if_neg, if_false,
      reduceIte, Except.ok.injEq, Prod.mk.injEq] at hq
    obtain ⟨hst3, hfind⟩ := hq
    have hpred := List.find?_some hfind
    intro hqp
    have hcontains :
        (load_numbers_from_file
          (st.successFile ++ [p.number] ++ [p.number])).contains
            p.number = true := by
      rw [load_append_single _ _ htrim hne,
        load_append_single _ _ htrim hne, setInsert_idem]
      exact contains_setInsert_self _ _
    simp only [is_processed, reloadFiles] at hpred
    rw [hqp] at hpred
    rw [hcontains] at hpred
    simp at hpred

/-- Witness for C6: the first Scenario A identifier committed twice on
the fresh pool. -/
theorem mark_success_idempotent_witness :
    poolA.loaded = true ∧ pyStrip phone1.number = phone1.number ∧
    phone1.number ≠ "" ∧
    (∃ st1 st2, mark_success poolA phone1 = Except.ok st1 ∧
      mark_success st1 phone1 = Except.ok st2 ∧
      st2.successFile = poolA.successFile ++ [phone1.number]
        ++ [phone1.number] ∧
      (available_count st2).2 = (available_count st1).2 ∧
      st2.successNumbers = st1.successNumbers ∧
      (∀ st3 q, get_next st2 = Except.ok (st3, some q) →
        q.number ≠ phone1.number)) :=
  ⟨rfl, by decide, by decide,
    mark_success_idempotent poolA phone1 rfl (by decide) (by decide)⟩

/-- Claim C10: `get_next` is a read-only query up to refreshing the
in-memory sets from the persisted stores: it removes nothing from the
loaded list, a second call on the resulting state (with unchanged
stores) returns exactly the same answer, and after a call the in-memory
sets equal the persisted store contents. -/
theorem get_next_readonly (st : PMState) (h : st.loaded = true) :
    get_next st = Except.ok (reloadFiles st,
      st.allPhones.find? fun p =>
        !(is_processed (reloadFiles st) p.number)) ∧
    get_next (reloadFiles st) = get_next st ∧
    (reloadFiles st).allPhones = st.allPhones ∧
    (reloadFiles st).successNumbers =
      load_numbers_from_file st.successFile ∧
    (reloadFiles st).failedNumbers =
      load_numbers_from_file st.failedFile := by
  have hrr : reloadFiles (reloadFiles st) = reloadFiles st := rfl
  refine ⟨?_, ?_, rfl, rfl, rfl⟩
  · simp [get_next, h, reloadFiles]
  · simp [get_next, h, hrr, reloadFiles]

/-- Witness for C10 at the Scenario A pool. -/
theorem get_next_readonly_witness :
    poolA.loaded = true ∧
    get_next (reloadFiles poolA) = get_next poolA :=
  ⟨rfl, (get_next_readonly poolA rfl).2.1⟩

/-- Claim C3: every exception raised during the signup flow — at any
control point of the flow body, or from the cleanup call itself — is
caught at the attempt boundary: the attempt yields exactly one outcome,
with `success = false` and the exception message preserved inside the
recorded reason, performs exactly one session release followed by the
single failure commit, and lets no exception escape `run_single_signup`. -/
theorem exception_yields_single_outcome (e : FlowEnv) (m : String)
    (hph : e.phoneAvailable.isSome = true)
    (hm : raisedMessage e = some m) :
    ∃ r, run_single_signup e =
        (Except.ok r, [Ev.stop, Ev.commitFailed]) ∧
      r.success = false ∧
      occursIn m.toList ((r.error_message.getD "").toList) = true := by
  obtain ⟨ph, hp⟩ := Option.isSome_iff_exists.mp hph
  cases hsf : e.stopFailure with
  | some ms =>
    have hmm : ms = m := by
      simp [raisedMessage, hsf] at hm
      exact hm
    subst hmm
    cases hb : airbnbBody e with
    | ret r st =>
      refine ⟨create_result false st (some ms) false, ?_, rfl, ?_⟩
      · simp [run_single_signup, run_airbnb_signup, hp, hsf, hb]
      · simpa using occursIn_self ms.toList
    | excTimeout mt st =>
      refine ⟨create_result false st (some ms) false, ?_, rfl, ?_⟩
      · simp [run_single_signup, run_airbnb_signup, hp, hsf, hb]
      · simpa using occursIn_self ms.toList
    | excGeneric mg st =>
      refine ⟨create_result false st (some ms) false, ?_, rfl, ?_⟩
      · simp [run_single_signup, run_airbnb_signup, hp, hsf, hb]
      · simpa using occursIn_self ms.toList
  | none =>
    cases hb : airbnbBody e with
    | ret r st =>
      exfalso
      simp [raisedMessage, hsf, hb] at hm
    | excTimeout mt st =>
      have hmm : mt = m := by
        simp [raisedMessage, hsf, hb] at hm
        exact hm
      subst hmm
      refine ⟨create_result false st (some ("Timeout: " ++ mt)) false,
        ?_, rfl, ?_⟩
      · simp [run_single_signup, run_airbnb_signup, hp, hsf, hb,
          create_result]
      · show occursIn mt.toList (("Timeout: " ++ mt).toList) = true
        exact occursIn_append_left mt.toList mt.toList "Timeout: ".toList
          (occursIn_self mt.toList)
    | excGeneric mg st =>
      have hmm : mg = m := by
        simp [raisedMessage, hsf, hb] at hm
        exact hm
      subst hmm
      refine ⟨create_result false st (some mg) false, ?_, rfl, ?_⟩
      · simp [run_single_signup, run_airbnb_signup, hp, hsf, hb,
          create_result]
      · simpa using occursIn_self mg.toList

/-- Witness for C3: a generic exception injected at the first control
point of an otherwise successful attempt. -/
theorem exception_yields_single_outcome_witness :
    crashEnv.phoneAvailable.isSome = true ∧
    raisedMessage crashEnv = some "boom" ∧
    (∃ r, run_single_signup crashEnv =
        (Except.ok r, [Ev.stop, Ev.commitFailed]) ∧
      r.success = false ∧
      occursIn "boom".toList ((r.error_message.getD "").toList) = true) :=
  ⟨rfl, rfl, exception_yields_single_outcome crashEnv "boom" rfl rfl⟩

/-- Claim C4 counterexample: on a fully successful concrete attempt the
trace is session release first (`browser_manager.stop` runs in the
`finally` block of `_run_airbnb_signup`), outcome commit second (in the
caller `run_single_signup`) — no commit precedes the release, refuting
the claimed commit-then-release order. -/
theorem release_before_commit_cex :
    (run_single_signup happyEnv).2 =
      [Ev.stop, Ev.commitSuccess, Ev.saveAccount] ∧
    commitsBeforeStop (run_single_signup happyEnv).2 = false ∧
    (run_single_signup happyEnv).2.contains Ev.stop = true ∧
    (run_single_signup happyEnv).2.contains Ev.commitSuccess = true := by
  refine ⟨rfl, rfl, rfl, rfl⟩

/-- Claim C4 amended: for every attempt that claimed an identifier, the
session release and exactly one outcome commit are both performed
unconditionally — but release first, inside the flow's guaranteed
cleanup block, and commit second, in the caller. -/
theorem release_then_commit_unconditional (e : FlowEnv)
    (hph : e.phoneAvailable.isSome = true) :
    ∃ tail, (run_single_signup e).2 = Ev.stop :: tail ∧
      tail.count Ev.stop = 0 ∧
      tail.count Ev.commitSuccess + tail.count Ev.commitFailed = 1 := by
  obtain ⟨ph, hp⟩ := Option.isSome_iff_exists.mp hph
  cases hsf : e.stopFailure with
  | some ms =>
    refine ⟨[Ev.commitFailed], ?_, by decide, by decide⟩
    simp [run_single_signup, run_airbnb_signup, hp, hsf]
  | none =>
    cases hb : airbnbBody e with
    | ret r st =>
      cases hs : r.success
      · refine ⟨[Ev.commitFailed], ?_, by decide, by decide⟩
        simp [run_single_signup, run_airbnb_signup, hp, hsf, hb, hs]
      · cases ha : r.hasAccount
        · refine ⟨[Ev.commitSuccess], ?_, by decide, by decide⟩
          simp [run_single_signup, run_airbnb_signup, hp, hsf, hb, hs, ha]
        · refine ⟨[Ev.commitSuccess, Ev.saveAccount], ?_, by decide,
            by decide⟩
          simp [run_single_signup, run_airbnb_signup, hp, hsf, hb, hs, ha]
    | excTimeout mt st =>
      refine ⟨[Ev.commitFailed], ?_, by decide, by decide⟩
      simp [run_single_signup, run_airbnb_signup, hp, hsf, hb,
        create_result]
    | excGeneric mg st =>
      refine ⟨[Ev.commitFailed], ?_, by decide, by decide⟩
      simp [run_single_signup, run_airbnb_signup, hp, hsf, hb,
        create_result]

/-- Witness for the amended C4 on the fully successful attempt. -/
theorem release_then_commit_unconditional_witness :
    happyEnv.phoneAvailable.isSome = true ∧
    (∃ tail, (run_single_signup happyEnv).2 = Ev.stop :: tail ∧
      tail.count Ev.stop = 0 ∧
      tail.count Ev.commitSuccess + tail.count Ev.commitFailed = 1) :=
  ⟨rfl, release_then_commit_unconditional happyEnv rfl⟩

/-- Claim C7 counterexample: `BrowserManager.stop` raises on a session
whose underlying browser handle is already dead — neither the browser
close nor the Playwright stop is wrapped in an exception handler. -/
theorem stop_raises_on_dead_handle :
    BrowserManager.stop
      { browser := some { closeFailure := some "Connection closed" },
        playwright := some { stopFailure := none } } =
      Except.error "Connection closed" := rfl

/-- Claim C7 amended: `stop` tolerates absent handles and, whenever the
underlying close/stop calls complete normally, clears both handles and
returns without error; but when the underlying handle is dead and its
close raises, the exception propagates out of `stop` uncaught. -/
theorem stop_cleanup_when_handles_close (s : BrowserManagerState)
    (hb : ∀ b, s.browser = some b → b.closeFailure = none)
    (hp : ∀ pw, s.playwright = some pw → pw.stopFailure = none) :
    BrowserManager.stop s =
      Except.ok { browser := none, playwright := none } := by
  obtain ⟨br, pw⟩ := s
  cases br with
  | none =>
    cases pw with
    | none => rfl
    | some pwh =>
      have h2 := hp pwh rfl
      simp [BrowserManager.stop, h2, bind, Except.bind]
  | some bh =>
    have h1 := hb bh rfl
    cases pw with
    | none =>
      simp [BrowserManager.stop, h1, bind, Except.bind]
    | some pwh =>
      have h2 := hp pwh rfl
      simp [BrowserManager.stop, h1, h2, bind, Except.bind]

/-- Witness for the amended C7 on a session with two live handles. -/
theorem stop_cleanup_when_handles_close_witness :
    BrowserManager.stop
      { browser := some { closeFailure := none },
        playwright := some { stopFailure := none } } =
      Except.ok { browser := none, playwright := none } :=
  stop_cleanup_when_handles_close
    { browser := some { closeFailure := none },
      playwright := some { stopFailure := none } }
    (fun b hb => by cases hb; rfl)
    (fun pw hpw => by cases hpw; rfl)

end AC
